import Mathlib

/-!
Shallow embedding of the credential-validation core of the ODP-Identity
service (`odpidentity/lib/users.py`), together with theorems settling the
spec's claims about it.

Modelling conventions:
* Strings are `List Char`; Python's `str.lower()` is `List.map Char.toLower`
  (the source only exercises ASCII here, and the regex classes `[A-Z]`,
  `[a-z]`, `\d` are ASCII classes, matching `Char.isUpper` / `Char.isLower`
  / `Char.isDigit`).
* The SQLAlchemy session is a list of user records; `filter_by(email=...)
  .first()` is the first list element with that email; `add` + `commit` of an
  existing record replaces the record with the same (unique) email, and of a
  fresh record appends it.
* The Argon2 password hasher `ph` is an external collaborator; it is modelled
  as an abstract record of its three operations (`hash`, `verify`,
  `check_needs_rehash`).  `verify` returning `false` corresponds to
  `VerifyMismatchError` being raised (the fatal malformed-hash condition is
  out of the model).
* Exception-raising functions return `Except`; `validate_user_login` also
  returns the final database state, because the rehash commit happens before
  the active/verified checks and therefore survives a subsequent raise.
-/

namespace ODPIdentity

/-- A stored user record, with the fields the validation core reads and
writes (`odpaccounts.models.user.User`).  The `password` field holds the
password HASH, as in the source. -/
structure User where
  email : List Char
  password : List Char
  superuser : Bool
  active : Bool
  verified : Bool
deriving DecidableEq

/-- The error taxonomy of `odpidentity.lib.exceptions` used by the
validation core. -/
inductive ODPError where
  | userNotFound
  | accountLocked
  | incorrectPassword
  | accountDisabled
  | emailNotVerified
  | emailInUse
  | passwordComplexityError
deriving DecidableEq

/-- The user store visible through the db session. -/
abbrev DB := List User

/-- `db_session.query(User).filter_by(email=email).first()`. -/
def findByEmail (db : DB) (email : List Char) : Option User :=
  db.find? (fun u => decide (u.email = email))

/-- `db_session.add(user); db_session.commit()` for a record already in the
store: the record with the same (unique) email is replaced. -/
def saveUser (db : DB) (u : User) : DB :=
  db.map (fun v => if v.email = u.email then u else v)

/-- The Argon2 password hasher (`argon2.PasswordHasher()`), an external
collaborator: `hash`, `verify hash password` (false = mismatch), and
`check_needs_rehash`. -/
structure Hasher where
  hash : List Char → List Char
  verify : List Char → List Char → Bool
  needsRehash : List Char → Bool

/-- `is_account_locked(user)`: placeholder lockout policy, constant false. -/
def is_account_locked (_ : User) : Bool := false

/-- `lock_account(user)`: placeholder lockout policy, constant false. -/
def lock_account (_ : User) : Bool := false

/-- Python's substring test `needle in hay` (for strings): `needle` occurs
contiguously in `hay` (the empty needle occurs in everything). -/
def strContains : List Char → List Char → Bool
  | [], needle => needle.isEmpty
  | c :: t, needle => needle.isPrefixOf (c :: t) || strContains t needle

/-- `check_consecutive_letters(email, password)`: for each `i` in
`range(len(email) - 1)`, reject (return false) when the slice
`email[i:i+3]` occurs in `password.lower()`.  Note the slice itself is NOT
lower-cased, exactly as in the source. -/
def check_consecutive_letters (email password : List Char) : Bool :=
  (List.range (email.length - 1)).all
    (fun i => !strContains (password.map Char.toLower) ((email.drop i).take 3))

/-- The fixed symbol set of the regex
character class on line 245 of `users.py`.  `Char.ofNat 39` is the
apostrophe, `Char.ofNat 96` the backtick, `Char.ofNat 123` and
`Char.ofNat 125` the two curly braces. -/
def symbols : List Char :=
  ['!', '=', ';', ':', '?', '>', '@', '<', '#', '$', '%', '&', Char.ofNat 39,
   '(', ')', '*', '+', ',', '-', '.', '/', '[', '\\', ']', '^', '_',
   Char.ofNat 96, Char.ofNat 123, '|', Char.ofNat 125, '~']

/-- `check_password_complexity(email, password)`. -/
def check_password_complexity (email password : List Char) : Bool :=
  let username_check := check_consecutive_letters email password
  let length_check := decide (password.length ≥ 13)
  let uppercase_check := password.any Char.isUpper
  let numeric_check := password.any Char.isDigit
  let lowercase_check := password.any Char.isLower
  let symbol_check := password.any (fun c => symbols.contains c)
  length_check && uppercase_check && numeric_check && lowercase_check &&
    symbol_check && username_check

/-- `validate_user_login(email, password)`.  Returns the outcome together
with the final state of the store: the rehash commit (lines 45-48) happens
before the active/verified checks (lines 55-59), so it persists even when a
later check raises. -/
def validate_user_login (ph : Hasher) (db : DB) (email password : List Char) :
    Except ODPError User × DB :=
  match findByEmail db email with
  | none => (.error .userNotFound, db)
  | some user =>
    if is_account_locked user then (.error .accountLocked, db)
    else if ph.verify user.password password then
      let u2 := if ph.needsRehash user.password then
                  { user with password := ph.hash password }
                else user
      let db2 := if ph.needsRehash user.password then saveUser db u2 else db
      if u2.active = false then (.error .accountDisabled, db2)
      else if u2.verified = false then (.error .emailNotVerified, db2)
      else (.ok u2, db2)
    else if lock_account user then (.error .accountLocked, db)
    else (.error .incorrectPassword, db)

/-- `validate_forgot_password(email)`. -/
def validate_forgot_password (db : DB) (email : List Char) :
    Except ODPError User :=
  match findByEmail db email with
  | none => .error .userNotFound
  | some user =>
    if is_account_locked user then .error .accountLocked
    else if user.active = false then .error .accountDisabled
    else .ok user

/-- `create_user_account(email, password)`: build the new record and
persist it (append to the store). -/
def create_user_account (ph : Hasher) (db : DB) (email password : List Char) :
    User × DB :=
  let user : User :=
    { email := email
      password := ph.hash password
      superuser := false
      active := true
      verified := false }
  (user, db ++ [user])

/-- `update_user_verified(user, verified)`: one field mutation plus a
persist. -/
def update_user_verified (db : DB) (user : User) (verified : Bool) :
    User × DB :=
  let u2 := { user with verified := verified }
  (u2, saveUser db u2)

/-- Convenience: the character list of a string literal. -/
def str (s : String) : List Char := s.data

/-- A concrete stand-in hasher whose parameters are current (no rehash
needed): hashing prepends `H`, and verification recomputes the hash. -/
def hasherNoRehash : Hasher where
  hash := fun p => 'H' :: p
  verify := fun h p => decide (h = 'H' :: p)
  needsRehash := fun _ => false

/-- A concrete stand-in hasher whose parameters have changed: stored hashes
were made by prepending `H`, verification still accepts them, but fresh
hashes prepend `K` and every stored hash is flagged for rehash. -/
def hasherRehash : Hasher where
  hash := fun p => 'K' :: p
  verify := fun h p => decide (h = 'H' :: p)
  needsRehash := fun _ => true

/-- Concrete fixture: an active, verified user. -/
def annUser : User :=
  { email := str "ann@x.org", password := 'H' :: str "pw1",
    superuser := false, active := true, verified := true }

/-- Concrete fixture: a deactivated user. -/
def bobUser : User :=
  { email := str "bob@x.org", password := 'H' :: str "pw2",
    superuser := false, active := false, verified := true }

/-- Concrete fixture: an active user whose email is not yet verified. -/
def catUser : User :=
  { email := str "cat@x.org", password := 'H' :: str "pw3",
    superuser := false, active := true, verified := false }

/-- Concrete fixture store holding the three users. -/
def sampleDB : DB := [annUser, bobUser, catUser]

/-- Claim C9: for every email of length 0 or 1, the window loop of
`check_consecutive_letters` iterates over an empty range
(`range(len(email) - 1)`), so the function returns true and the
email-substring rule can never cause `check_password_complexity` to reject
for such emails. -/
theorem short_email_no_window_rejection (email password : List Char)
    (h : email.length ≤ 1) :
    check_consecutive_letters email password = true := by
  have h0 : email.length - 1 = 0 := by omega
  simp [check_consecutive_letters, h0]

/-- Witness for C9 at a length-1 email. -/
theorem short_email_no_window_rejection_witness :
    check_consecutive_letters (str "a") (str "aaaaaaaaaaaaa") = true :=
  short_email_no_window_rejection (str "a") (str "aaaaaaaaaaaaa") (by decide)

/-- Claim C3: `check_password_complexity` returns false whenever the
password is shorter than 13 characters, and returns false whenever the
password contains no digit, or no uppercase letter, or no lowercase letter,
or no symbol from the fixed set, regardless of length. -/
theorem complexity_rejects_weak_passwords (email password : List Char) :
    (password.length < 13 → check_password_complexity email password = false) ∧
    ((∀ c ∈ password, c.isDigit = false) →
      check_password_complexity email password = false) ∧
    ((∀ c ∈ password, c.isUpper = false) →
      check_password_complexity email password = false) ∧
    ((∀ c ∈ password, c.isLower = false) →
      check_password_complexity email password = false) ∧
    ((∀ c ∈ password, symbols.contains c = false) →
      check_password_complexity email password = false) := by
  refine ⟨fun h => ?_, fun h => ?_, fun h => ?_, fun h => ?_, fun h => ?_⟩
  · have hl : ¬ (password.length ≥ 13) := by omega
    simp [check_password_complexity, hl]
  · have hd : password.any Char.isDigit = false := by
      rw [List.any_eq_false]; intro c hc; simpa using h c hc
    simp [check_password_complexity, hd]
  · have hu : password.any Char.isUpper = false := by
      rw [List.any_eq_false]; intro c hc; simpa using h c hc
    simp [check_password_complexity, hu]
  · have hw : password.any Char.isLower = false := by
      rw [List.any_eq_false]; intro c hc; simpa using h c hc
    simp [check_password_complexity, hw]
  · have hs : password.any (fun c => symbols.contains c) = false := by
      rw [List.any_eq_false]; intro c hc; simpa using h c hc
    simp only [check_password_complexity]
    rw [hs]
    simp

/-- Witness for C3: a too-short password is rejected. -/
theorem complexity_rejects_weak_passwords_witness :
    check_password_complexity (str "lance@saeon.ac.za") (str "123qwe")
      = false :=
  (complexity_rejects_weak_passwords (str "lance@saeon.ac.za")
    (str "123qwe")).1 (by decide)

/-- Claim C4 counterexample: the password `abcWXYZ12345!` contains,
case-insensitively, the 3-character window `ABC` of the email `ABC@x.com`
(the lower-cased window occurs in the lower-cased password at a start
index inside `[0, len(email)-1)`), yet `check_password_complexity` accepts
the password: the source compares the raw, non-lower-cased email slice
against the lower-cased password, so an uppercase window never matches. -/
theorem complexity_email_window_cex :
    strContains ((str "abcWXYZ12345!").map Char.toLower)
      ((((str "ABC@x.com").drop 0).take 3).map Char.toLower) = true ∧
    0 < (str "ABC@x.com").length - 1 ∧
    check_password_complexity (str "ABC@x.com") (str "abcWXYZ12345!")
      = true := by
  refine ⟨by decide, by decide, by decide⟩

/-- Claim C4 (amended): the scan takes, for every start index `i` in
`[0, len(email)-1)`, the slice of the email beginning at `i` (length 3,
shorter at the tail) WITHOUT lower-casing it; whenever that raw slice
occurs in the lower-cased password, `check_password_complexity` returns
false.  Matching is therefore case-sensitive on the email side and
windows containing uppercase letters can never match. -/
theorem complexity_rejects_email_window (email password : List Char)
    (i : Nat) (hi : i < email.length - 1)
    (hw : strContains (password.map Char.toLower) ((email.drop i).take 3)
            = true) :
    check_password_complexity email password = false := by
  have hc : check_consecutive_letters email password = false := by
    unfold check_consecutive_letters
    cases hall : (List.range (email.length - 1)).all
        (fun i => !strContains (password.map Char.toLower)
          ((email.drop i).take 3)) with
    | false => rfl
    | true =>
      rw [List.all_eq_true] at hall
      have h2 := hall i (List.mem_range.mpr hi)
      rw [hw] at h2
      simp at h2
  simp [check_password_complexity, hc]

/-- Witness for C4 (amended): a lowercase email window occurring in the
password causes rejection. -/
theorem complexity_rejects_email_window_witness :
    check_password_complexity (str "lance@saeon.ac.za")
      (str "lanceasdTest123") = false :=
  complexity_rejects_email_window (str "lance@saeon.ac.za")
    (str "lanceasdTest123") 0 (by decide) (by decide)

/-- Helper: once the user is found, the lockout placeholder never fires and
`validate_user_login` reduces to the password check followed by the
rehash/flag logic. -/
theorem validate_user_login_found (ph : Hasher) (db : DB)
    (email password : List Char) (user : User)
    (hfind : findByEmail db email = some user) :
    validate_user_login ph db email password =
      if ph.verify user.password password then
        let u2 := if ph.needsRehash user.password then
                    { user with password := ph.hash password }
                  else user
        let db2 := if ph.needsRehash user.password then saveUser db u2 else db
        if u2.active = false then (.error .accountDisabled, db2)
        else if u2.verified = false then (.error .emailNotVerified, db2)
        else (.ok u2, db2)
      else (.error .incorrectPassword, db) := by
  unfold validate_user_login
  rw [hfind]
  simp [is_account_locked, lock_account]

/-- Claim C1: for every stored user whose submitted password matches the
stored hash, login fails `AccountDisabled` when the user is inactive,
fails `EmailNotVerified` when active but unverified, and returns a user
record with the same email and both flags set when active and verified
(only the password hash may differ, from the opportunistic rehash).  In
particular a correct password on an inactive account never yields
`IncorrectPassword`. -/
theorem login_correct_password_outcomes (ph : Hasher) (db : DB)
    (email password : List Char) (user : User)
    (hfind : findByEmail db email = some user)
    (hv : ph.verify user.password password = true) :
    (user.active = false →
      (validate_user_login ph db email password).1
        = Except.error ODPError.accountDisabled) ∧
    (user.active = true → user.verified = false →
      (validate_user_login ph db email password).1
        = Except.error ODPError.emailNotVerified) ∧
    (user.active = true → user.verified = true →
      ∃ u, (validate_user_login ph db email password).1 = Except.ok u ∧
        u.email = user.email ∧ u.active = true ∧ u.verified = true) := by
  have hchar := validate_user_login_found ph db email password user hfind
  refine ⟨fun ha => ?_, fun ha hb => ?_, fun ha hb => ?_⟩
  · cases hr : ph.needsRehash user.password <;> simp [hchar, hv, hr, ha]
  · cases hr : ph.needsRehash user.password <;> simp [hchar, hv, hr, ha, hb]
  · cases hr : ph.needsRehash user.password
    · exact ⟨user, by simp [hchar, hv, hr, ha, hb], rfl, ha, hb⟩
    · exact ⟨{ user with password := ph.hash password },
        by simp [hchar, hv, hr, ha, hb], rfl, ha, hb⟩

/-- Witness for C1: with the concrete hasher, a correct password succeeds
for the active verified user and fails `AccountDisabled` for the
deactivated user. -/
theorem login_correct_password_outcomes_witness :
    (∃ u, (validate_user_login hasherNoRehash sampleDB (str "ann@x.org")
        (str "pw1")).1 = Except.ok u ∧ u.email = annUser.email ∧
        u.active = true ∧ u.verified = true) ∧
    (validate_user_login hasherNoRehash sampleDB (str "bob@x.org")
        (str "pw2")).1 = Except.error ODPError.accountDisabled :=
  ⟨(login_correct_password_outcomes hasherNoRehash sampleDB (str "ann@x.org")
      (str "pw1") annUser (by decide) (by decide)).2.2 rfl rfl,
   (login_correct_password_outcomes hasherNoRehash sampleDB (str "bob@x.org")
      (str "pw2") bobUser (by decide) (by decide)).1 rfl⟩

/-- Claim C2: for an email not associated with any stored user, login fails
`UserNotFound` for every password, the hasher is never consulted (the
outcome and final store are the same for any two hashers and any two
passwords), and the store is unchanged. -/
theorem login_unknown_email (ph1 ph2 : Hasher) (db : DB)
    (email p1 p2 : List Char) (h : findByEmail db email = none) :
    validate_user_login ph1 db email p1
      = (Except.error ODPError.userNotFound, db) ∧
    validate_user_login ph2 db email p2
      = validate_user_login ph1 db email p1 := by
  have e1 : validate_user_login ph1 db email p1
      = (Except.error ODPError.userNotFound, db) := by
    unfold validate_user_login; rw [h]
  have e2 : validate_user_login ph2 db email p2
      = (Except.error ODPError.userNotFound, db) := by
    unfold validate_user_login; rw [h]
  exact ⟨e1, e2.trans e1.symm⟩

/-- Witness for C2: an unknown email gives `UserNotFound` under two
different hashers and passwords, with identical outcomes. -/
theorem login_unknown_email_witness :
    validate_user_login hasherNoRehash sampleDB (str "dan@x.org") (str "p1")
      = (Except.error ODPError.userNotFound, sampleDB) ∧
    validate_user_login hasherRehash sampleDB (str "dan@x.org") (str "p2")
      = validate_user_login hasherNoRehash sampleDB (str "dan@x.org")
          (str "p1") :=
  login_unknown_email hasherNoRehash hasherRehash sampleDB (str "dan@x.org")
    (str "p1") (str "p2") (by decide)

/-- Claim C5: the lockout placeholders are constant false
(`is_account_locked` and `lock_account` return false for every user), so a
stored user with a non-matching password always fails `IncorrectPassword`,
never `AccountLocked`, and the store is unchanged. -/
theorem lockout_placeholder_incorrect_password :
    (∀ u : User, is_account_locked u = false) ∧
    (∀ u : User, lock_account u = false) ∧
    ∀ (ph : Hasher) (db : DB) (email password : List Char) (user : User),
      findByEmail db email = some user →
      ph.verify user.password password = false →
      validate_user_login ph db email password
        = (Except.error ODPError.incorrectPassword, db) := by
  refine ⟨fun _ => rfl, fun _ => rfl,
    fun ph db email password user hfind hv => ?_⟩
  unfold validate_user_login
  rw [hfind]
  simp [is_account_locked, lock_account, hv]

/-- Witness for C5: a wrong password for a stored user fails
`IncorrectPassword`. -/
theorem lockout_placeholder_incorrect_password_witness :
    validate_user_login hasherNoRehash sampleDB (str "ann@x.org")
      (str "wrong") = (Except.error ODPError.incorrectPassword, sampleDB) :=
  lockout_placeholder_incorrect_password.2.2 hasherNoRehash sampleDB
    (str "ann@x.org") (str "wrong") annUser (by decide) (by decide)

/-- Claim C6: `validate_forgot_password` fails `UserNotFound` when no user
has the email, fails `AccountDisabled` when the user is inactive, and
otherwise returns the user regardless of the verified flag (the lock check
exists in the code but `is_account_locked` is constant false, so it never
fires; the claim's `AccountLocked` case is vacuous in the current scope). -/
theorem forgot_password_cases (db : DB) (email : List Char) :
    (findByEmail db email = none →
      validate_forgot_password db email
        = Except.error ODPError.userNotFound) ∧
    (∀ u : User, is_account_locked u = false) ∧
    (∀ user : User, findByEmail db email = some user → user.active = false →
      validate_forgot_password db email
        = Except.error ODPError.accountDisabled) ∧
    (∀ user : User, findByEmail db email = some user → user.active = true →
      validate_forgot_password db email = Except.ok user) := by
  refine ⟨fun h => ?_, fun _ => rfl, fun user h ha => ?_, fun user h ha => ?_⟩
  · unfold validate_forgot_password; rw [h]
  · unfold validate_forgot_password; rw [h]
    simp [is_account_locked, ha]
  · unfold validate_forgot_password; rw [h]
    simp [is_account_locked, ha]

/-- Witness for C6: an active-but-unverified user succeeds, a deactivated
user fails `AccountDisabled`, an unknown email fails `UserNotFound`. -/
theorem forgot_password_cases_witness :
    validate_forgot_password sampleDB (str "cat@x.org") = Except.ok catUser ∧
    validate_forgot_password sampleDB (str "bob@x.org")
      = Except.error ODPError.accountDisabled ∧
    validate_forgot_password sampleDB (str "dan@x.org")
      = Except.error ODPError.userNotFound :=
  ⟨(forgot_password_cases sampleDB (str "cat@x.org")).2.2.2 catUser
      (by decide) rfl,
   (forgot_password_cases sampleDB (str "bob@x.org")).2.2.1 bobUser
      (by decide) rfl,
   (forgot_password_cases sampleDB (str "dan@x.org")).1 (by decide)⟩

/-- Claim C7: `create_user_account` persists a new user record with the
given email, `active = true`, `verified = false`, `superuser = false`, and
a password hash produced by the hasher — never the plaintext password
itself, whenever the hasher does not map the password to itself (as a real
Argon2 hash never does). -/
theorem create_account_persists_fields (ph : Hasher) (db : DB)
    (email password : List Char) :
    (create_user_account ph db email password).1.email = email ∧
    (create_user_account ph db email password).1.active = true ∧
    (create_user_account ph db email password).1.verified = false ∧
    (create_user_account ph db email password).1.superuser = false ∧
    (create_user_account ph db email password).1.password
      = ph.hash password ∧
    (create_user_account ph db email password).2
      = db ++ [(create_user_account ph db email password).1] ∧
    (ph.hash password ≠ password →
      (create_user_account ph db email password).1.password ≠ password) := by
  exact ⟨rfl, rfl, rfl, rfl, rfl, rfl, fun h => h⟩

/-- Witness for C7: with the concrete hasher the persisted hash differs
from the plaintext password. -/
theorem create_account_persists_fields_witness :
    (create_user_account hasherNoRehash [] (str "new@x.com")
        (str "GoodPass1!23456")).1.password ≠ str "GoodPass1!23456" :=
  (create_account_persists_fields hasherNoRehash [] (str "new@x.com")
    (str "GoodPass1!23456")).2.2.2.2.2.2 (by decide)

/-- Helper: replacing the same record twice in the store is the same as
replacing it once. -/
theorem saveUser_idem (db : DB) (u : User) :
    saveUser (saveUser db u) u = saveUser db u := by
  induction db with
  | nil => rfl
  | cons v t ih =>
    simp only [saveUser, List.map_cons] at ih ⊢
    by_cases h : v.email = u.email
    · simp [h, ih]
    · simp [h, ih]

/-- Claim C8: `update_user_verified` with `true` is idempotent: the second
call returns the same record and the same store as the first, and the
record's verified flag is true after the first call already. -/
theorem set_verified_idempotent (db : DB) (user : User) :
    (update_user_verified (update_user_verified db user true).2
        (update_user_verified db user true).1 true).1
      = (update_user_verified db user true).1 ∧
    (update_user_verified (update_user_verified db user true).2
        (update_user_verified db user true).1 true).2
      = (update_user_verified db user true).2 ∧
    (update_user_verified db user true).1.verified = true :=
  ⟨rfl, saveUser_idem db { user with verified := true }, rfl⟩

/-- Claim C10 counterexample: with a hasher whose parameters have changed
(`hasherRehash`), a correct password on the deactivated account
`bob@x.org` produces the failing outcome `AccountDisabled`, yet the store
has been mutated: the rehashed password hash was committed before the
active check ran. -/
theorem login_failure_mutation_cex :
    (validate_user_login hasherRehash sampleDB (str "bob@x.org")
        (str "pw2")).1 = Except.error ODPError.accountDisabled ∧
    (validate_user_login hasherRehash sampleDB (str "bob@x.org")
        (str "pw2")).2 ≠ sampleDB :=
  ⟨rfl, by decide⟩

/-- Claim C10 (amended): on the `UserNotFound`, `AccountLocked` and
`IncorrectPassword` outcomes the store is unchanged, and any change to the
store is exactly the rehash of the found user's password hash, which
requires a successful password verification — but the rehash commit
precedes the active/verified checks, so the store can be mutated even when
the outcome is `AccountDisabled` or `EmailNotVerified`. -/
theorem login_failure_mutation (ph : Hasher) (db : DB)
    (email password : List Char) :
    ((validate_user_login ph db email password).1
        = Except.error ODPError.userNotFound ∨
     (validate_user_login ph db email password).1
        = Except.error ODPError.accountLocked ∨
     (validate_user_login ph db email password).1
        = Except.error ODPError.incorrectPassword →
      (validate_user_login ph db email password).2 = db) ∧
    ((validate_user_login ph db email password).2 ≠ db →
      ∃ user, findByEmail db email = some user ∧
        ph.verify user.password password = true ∧
        ph.needsRehash user.password = true ∧
        (validate_user_login ph db email password).2
          = saveUser db { user with password := ph.hash password }) := by
  cases hfind : findByEmail db email with
  | none =>
    constructor
    · intro _; simp [validate_user_login, hfind]
    · intro hne; exact absurd (by simp [validate_user_login, hfind]) hne
  | some user =>
    have hchar := validate_user_login_found ph db email password user hfind
    cases hv : ph.verify user.password password with
    | false =>
      constructor
      · intro _; simp [hchar, hv]
      · intro hne; exact absurd (by simp [hchar, hv]) hne
    | true =>
      cases hr : ph.needsRehash user.password with
      | false =>
        constructor
        · intro _
          by_cases ha : user.active = false
          · simp [hchar, hv, hr, ha]
          · by_cases hb : user.verified = false
            · simp [hchar, hv, hr, ha, hb]
            · simp [hchar, hv, hr, ha, hb]
        · intro hne
          exfalso
          apply hne
          by_cases ha : user.active = false
          · simp [hchar, hv, hr, ha]
          · by_cases hb : user.verified = false
            · simp [hchar, hv, hr, ha, hb]
            · simp [hchar, hv, hr, ha, hb]
      | true =>
        constructor
        · intro hout
          exfalso
          by_cases ha : user.active = false
          · simp [hchar, hv, hr, ha] at hout
          · by_cases hb : user.verified = false
            · simp [hchar, hv, hr, ha, hb] at hout
            · simp [hchar, hv, hr, ha, hb] at hout
        · intro _
          refine ⟨user, rfl, hv, hr, ?_⟩
          by_cases ha : user.active = false
          · simp [hchar, hv, hr, ha]
          · by_cases hb : user.verified = false
            · simp [hchar, hv, hr, ha, hb]
            · simp [hchar, hv, hr, ha, hb]

/-- Witness for C10 (amended): the mutated-store branch at the concrete
rehash scenario, and the unchanged-store branch at an unknown email. -/
theorem login_failure_mutation_witness :
    (∃ user, findByEmail sampleDB (str "bob@x.org") = some user ∧
      hasherRehash.verify user.password (str "pw2") = true ∧
      hasherRehash.needsRehash user.password = true ∧
      (validate_user_login hasherRehash sampleDB (str "bob@x.org")
          (str "pw2")).2
        = saveUser sampleDB
            { user with password := hasherRehash.hash (str "pw2") }) ∧
    (validate_user_login hasherNoRehash sampleDB (str "dan@x.org")
        (str "p")).2 = sampleDB :=
  ⟨(login_failure_mutation hasherRehash sampleDB (str "bob@x.org")
      (str "pw2")).2 (by decide),
   (login_failure_mutation hasherNoRehash sampleDB (str "dan@x.org")
      (str "p")).1 (Or.inl rfl)⟩

end ODPIdentity
